import Mathlib

/-!
Verification of the `Mailbox` / `Email` value classes of
`src/thelittlehackers/model/email.py`.

Conventions of the shallow embedding:
* `Option String` models a Python string-or-None value.
* `Except PyErr` models raising an exception: `PyErr.valueError` stands
  for the `ValueError` raised by validation (the error kind the design
  documents call `InvalidArgument`), `PyErr.keyError` for a missing
  dictionary key (the `MalformedPayload` kind), and `PyErr.typeError`
  for the `TypeError` raised when Python iterates a non-iterable value.
* A JSON mailbox payload is an association list `List (String × String)`;
  an absent payload is `Option.none`.  A Python dictionary is falsy
  exactly when it has no keys, which the empty association list models.
* A scalar-or-collection argument is a `ListArg`: Python `None`, a
  non-iterable scalar object (such as a `Mailbox`), an iterable
  collection, or a raw string (which in Python is itself iterable,
  character by character).
-/

inductive PyErr
  | valueError (msg : String)
  | keyError (key : String)
  | typeError (msg : String)
  deriving DecidableEq

instance {ε α : Type} [DecidableEq ε] [DecidableEq α] : DecidableEq (Except ε α)
  | Except.error a, Except.error b =>
      if h : a = b then Decidable.isTrue (by rw [h])
      else Decidable.isFalse (fun hh => h (by injection hh))
  | Except.error _, Except.ok _ => Decidable.isFalse (fun hh => Except.noConfusion hh)
  | Except.ok _, Except.error _ => Decidable.isFalse (fun hh => Except.noConfusion hh)
  | Except.ok a, Except.ok b =>
      if h : a = b then Decidable.isTrue (by rw [h])
      else Decidable.isFalse (fun hh => h (by injection hh))

/-- Whitespace characters stripped by the Python method `str.strip()`:
space, tab, newline, carriage return, vertical tab and form feed. -/
def isPyWhitespace (c : Char) : Bool :=
  c = ' ' || c = '\t' || c = '\n' || c = '\r' || c = Char.ofNat 11 || c = Char.ofNat 12

/-- Embedding of the Python method `str.strip()`: remove leading and
trailing whitespace. -/
def pyStrip (s : String) : String :=
  String.mk (((s.toList.dropWhile isPyWhitespace).reverse.dropWhile isPyWhitespace).reverse)

/-- Embedding of the Python method `str.lower()`, restricted to the
ASCII range actually exercised here. -/
def pyLower (s : String) : String :=
  String.mk (s.toList.map Char.toLower)

def isEmailLocalChar (c : Char) : Bool :=
  c.isAlphanum || c = '.' || c = '_' || c = '%' || c = '+' || c = '-'

def isEmailLabelChar (c : Char) : Bool :=
  c.isAlphanum || c = '-'

def isEmailLabel (l : List Char) : Bool :=
  !l.isEmpty && l.all isEmailLabelChar

/-- Modelled from the spec: the address-validation collaborator
`thelittlehackers.utils.string_utils` is not under `src/`.  Spec §4.1
requires a syntactically well-formed address, local-part `@` domain per
the standard email grammar: a non-empty local part of address
characters, one `@` sign, and a non-empty domain of dot-separated
non-empty labels. -/
def isValidEmailAddress (s : String) : Bool :=
  match s.toList.splitOn '@' with
  | [lp, dom] =>
      !lp.isEmpty && lp.all isEmailLocalChar &&
      !dom.isEmpty && (dom.splitOn '.').all isEmailLabel
  | _ => false

/-- Normalisation applied to a candidate address: trim surrounding
whitespace and lower-case the whole string (spec §4.1). -/
def emailNormalize (s : String) : String :=
  pyLower (pyStrip s)

/-- Modelled from the spec: `string_utils.string_to_email_address` is
not under `src/`.  Spec §6: given a candidate string, returns the
canonical normalized email address or signals invalid-format failure
(the `InvalidArgument` error kind, a Python `ValueError`). -/
def string_to_email_address (s : String) : Except PyErr String :=
  let t := emailNormalize s
  if isValidEmailAddress t then Except.ok t
  else Except.error (PyErr.valueError "invalid email address")

/-- Modelled from the spec: `any_utils.is_empty_or_none` is not under
`src/`.  Spec §6: given a string, reports whether it is absent or
contains no meaningful content; modelled as absent or the empty
string. -/
def is_empty_or_none : Option String → Bool
  | Option.none => true
  | Option.some s => s.isEmpty

structure Mailbox where
  name : Option String
  email_address : String
  deriving DecidableEq

/-- Embedding of `Mailbox.__init__` (email.py lines 251-269).  The
assignment `self.__name = name and name.strip()` keeps `None` as
`None` and otherwise strips the string (the falsy empty string strips
to itself), which is exactly `name.map pyStrip`; the address goes
through the validation collaborator and construction fails when the
collaborator does. -/
def Mailbox.init (email_address : String) (name : Option String) : Except PyErr Mailbox :=
  match string_to_email_address email_address with
  | Except.error e => Except.error e
  | Except.ok addr => Except.ok { name := name.map pyStrip, email_address := addr }

/-- Rendering that a Python f-string applies to an optional string: the
value `None` prints as the four-character text `None`. -/
def pyStrOfOptionString : Option String → String
  | Option.none => "None"
  | Option.some s => s

/-- Embedding of `Mailbox.__str__` (email.py lines 271-272): the
f-string interpolation of the stored name between literal double
quotes, then the address between angle brackets. -/
def Mailbox.toStr (m : Mailbox) : String :=
  "\"" ++ pyStrOfOptionString m.name ++ "\" <" ++ m.email_address ++ ">"

/-- A Python value sitting where a `Mailbox` is expected: an actual
`Mailbox` object, the value `None`, or an empty dictionary (which the
short-circuit `payload and ...` of `Mailbox.from_json` can return
unchanged). -/
inductive MailboxV
  | mb (m : Mailbox)
  | pyNone
  | emptyDict
  deriving DecidableEq

/-- Dictionary key lookup on an association list, first binding wins;
models `payload[key]` success and `payload.get(key)`. -/
def lookupKey : List (String × String) → String → Option String
  | [], _ => Option.none
  | (k, v) :: rest, key => if k = key then Option.some v else lookupKey rest key

/-- Embedding of `Mailbox.from_json` (email.py lines 284-306):
`return payload and Mailbox(payload[..], name=payload.get(..))`.  A
`None` payload is falsy and is returned (`None`); an empty dictionary
is also falsy and is returned as itself; otherwise the item access
raises `KeyError` when `email_address` is missing, else the
constructor runs. -/
def Mailbox.from_json : Option (List (String × String)) → Except PyErr MailboxV
  | Option.none => Except.ok MailboxV.pyNone
  | Option.some [] => Except.ok MailboxV.emptyDict
  | Option.some d =>
      match lookupKey d "email_address" with
      | Option.none => Except.error (PyErr.keyError "email_address")
      | Option.some addr =>
          match Mailbox.init addr (lookupKey d "name") with
          | Except.error e => Except.error e
          | Except.ok m => Except.ok (MailboxV.mb m)

/-- A Python argument accepted by the scalar-or-collection parameters
of `Email.__init__`: `None`, a single non-iterable object, an iterable
collection, or a raw string (iterable character by character). -/
inductive ListArg (α : Type)
  | pyNone
  | scalar (a : α)
  | coll (xs : List α)
  | strScalar (s : String)

def ListArg.isScalar {α : Type} : ListArg α → Bool
  | ListArg.scalar _ => true
  | _ => false

/-- What `Email.__build_list` can actually store: `None`, the iterable
collection it was given, or a raw string given as-is (a string passes
the `isinstance(value, Iterable)` test and is returned unchanged). -/
inductive StoredList (α : Type)
  | absent
  | items (xs : List α)
  | rawStr (s : String)
  deriving DecidableEq

structure Email where
  author : MailboxV
  recipients : StoredList MailboxV
  cc_recipients : StoredList MailboxV
  bcc_recipients : StoredList MailboxV
  subject : String
  text_content : Option String
  html_content : Option String
  attached_files : StoredList String
  deriving DecidableEq

/-- Embedding of `Email.__build_list` (email.py lines 376-381):
`None` is kept; an `Iterable` value (a collection, or a raw string,
since strings are iterable) is returned as given; any other value v is
passed to `list(v)`, which raises `TypeError` because v is not
iterable — it is never wrapped into a one-element list. -/
def Email.build_list {α : Type} : ListArg α → Except PyErr (StoredList α)
  | ListArg.pyNone => Except.ok StoredList.absent
  | ListArg.coll xs => Except.ok (StoredList.items xs)
  | ListArg.strScalar s => Except.ok (StoredList.rawStr s)
  | ListArg.scalar _ => Except.error (PyErr.typeError "object is not iterable")

/-- Embedding of `Email.__init__` (email.py lines 317-374): first the
empty-content check on the two bodies, then the four scalar-or-
collection parameters go through `__build_list` in source order
(recipients, cc, bcc, and attached files last); every other field is
stored as-is. -/
def Email.init (author : MailboxV) (recipients : ListArg MailboxV) (subject : String)
    (bcc_recipients : ListArg MailboxV) (cc_recipients : ListArg MailboxV)
    (html_content : Option String) (text_content : Option String)
    (attached_files : ListArg String) : Except PyErr Email :=
  if is_empty_or_none html_content && is_empty_or_none text_content then
    Except.error (PyErr.valueError "Empty content")
  else
    match Email.build_list recipients with
    | Except.error e => Except.error e
    | Except.ok rs =>
      match Email.build_list cc_recipients with
      | Except.error e => Except.error e
      | Except.ok cs =>
        match Email.build_list bcc_recipients with
        | Except.error e => Except.error e
        | Except.ok bs =>
          match Email.build_list attached_files with
          | Except.error e => Except.error e
          | Except.ok fs =>
            Except.ok { author := author, recipients := rs, cc_recipients := cs,
                        bcc_recipients := bs, subject := subject,
                        text_content := text_content, html_content := html_content,
                        attached_files := fs }

/-- Embedding of the property `Email.content` (email.py lines 442-451):
`self.__html_content or self.__text_content`, the Python `or` of two
optional strings — the HTML body when it is present and non-empty,
else the text body. -/
def Email.content (e : Email) : Option String :=
  match e.html_content with
  | Option.some s => if s.isEmpty then e.text_content else Option.some s
  | Option.none => e.text_content

/-- The JSON value found under a recipients-class key: absent (missing
key or JSON null), a single mapping, or a sequence of mappings. -/
inductive MailboxesPayload
  | absent
  | dict (d : List (String × String))
  | array (ds : List (List (String × String)))
  deriving DecidableEq

/-- Embedding of the list comprehension
`[Mailbox.from_json(r) for r in payload]`: elements left to right,
first raised error propagates. -/
def Email.parse_mailbox_list : List (List (String × String)) → Except PyErr (List MailboxV)
  | [] => Except.ok []
  | d :: rest =>
      match Mailbox.from_json (Option.some d) with
      | Except.error e => Except.error e
      | Except.ok v =>
          match Email.parse_mailbox_list rest with
          | Except.error e => Except.error e
          | Except.ok vs => Except.ok (v :: vs)

/-- Embedding of `Email.__parse_mailboxes_from_json` (email.py lines
383-397).  Any falsy payload (`None`, empty dict, empty list) returns
`None`.  For a non-empty single mapping the code evaluates
`list(Mailbox.from_json(payload))`: `Mailbox.from_json` runs first (it
can raise `KeyError` or `ValueError`; on a non-empty mapping it
returns a `Mailbox` object), and then `list(...)` raises `TypeError`
because a `Mailbox` is not iterable.  For a non-empty sequence the
comprehension builds the ordered list. -/
def Email.parse_mailboxes_from_json : MailboxesPayload → Except PyErr (Option (List MailboxV))
  | MailboxesPayload.absent => Except.ok Option.none
  | MailboxesPayload.dict [] => Except.ok Option.none
  | MailboxesPayload.dict d =>
      match Mailbox.from_json (Option.some d) with
      | Except.error e => Except.error e
      | Except.ok _ => Except.error (PyErr.typeError "object is not iterable")
  | MailboxesPayload.array [] => Except.ok Option.none
  | MailboxesPayload.array ds =>
      match Email.parse_mailbox_list ds with
      | Except.error e => Except.error e
      | Except.ok ms => Except.ok (Option.some ms)

/-- The shape of an `Email` JSON payload as accessed by
`Email.from_json`.  For the three required keys the outer `Option`
records whether the key is present (`payload[key]` raises `KeyError`
when it is not); for the keys read with `payload.get(...)` a missing
key and a null value coincide. -/
structure EmailPayload where
  author : Option (Option (List (String × String)))
  subject : Option String
  recipients : Option MailboxesPayload
  cc_recipients : MailboxesPayload
  bcc_recipients : MailboxesPayload
  html_content : Option String
  text_content : Option String

/-- Conversion of a parsed recipients value (Python `None` or a list)
into the constructor argument it becomes. -/
def toListArg : Option (List MailboxV) → ListArg MailboxV
  | Option.none => ListArg.pyNone
  | Option.some xs => ListArg.coll xs

/-- Embedding of `Email.from_json` (email.py lines 453-474): `None`
payload short-circuits to `None`; then the required keys `author`
(through `Mailbox.from_json`), `subject` and `recipients` are read in
source order, the three recipient-class values are parsed, the two
bodies are read with `.get`, and the constructor is delegated to. -/
def Email.from_json : Option EmailPayload → Except PyErr (Option Email)
  | Option.none => Except.ok Option.none
  | Option.some p =>
    match p.author with
    | Option.none => Except.error (PyErr.keyError "author")
    | Option.some ap =>
      match Mailbox.from_json ap with
      | Except.error e => Except.error e
      | Except.ok author =>
        match p.subject with
        | Option.none => Except.error (PyErr.keyError "subject")
        | Option.some subject =>
          match p.recipients with
          | Option.none => Except.error (PyErr.keyError "recipients")
          | Option.some rp =>
            match Email.parse_mailboxes_from_json rp with
            | Except.error e => Except.error e
            | Except.ok recipients =>
              match Email.parse_mailboxes_from_json p.cc_recipients with
              | Except.error e => Except.error e
              | Except.ok cc =>
                match Email.parse_mailboxes_from_json p.bcc_recipients with
                | Except.error e => Except.error e
                | Except.ok bcc =>
                  (Email.init author (toListArg recipients) subject (toListArg bcc)
                    (toListArg cc) p.html_content p.text_content ListArg.pyNone).map
                    Option.some

/-- Modelled from the spec: the repository has no serializer; spec §6
documents the payload schema. Serialisation of one `Mailbox`:
required key `email_address`, optional key `name` when present. -/
def serializeMailbox (m : Mailbox) : List (String × String) :=
  ("email_address", m.email_address) ::
    (match m.name with
     | Option.some n => [("name", n)]
     | Option.none => [])

/-- Modelled from the spec: serialisation of a mailbox-position value;
only an actual `Mailbox` has a schema representation, the degenerate
values fall back to the empty mapping. -/
def serializeMailboxV : MailboxV → List (String × String)
  | MailboxV.mb m => serializeMailbox m
  | MailboxV.pyNone => []
  | MailboxV.emptyDict => []

/-- Modelled from the spec: serialisation of a stored recipients list
per the schema; only a collection of mailboxes has a representation,
a stored raw string has none and serialises as absent. -/
def serializeStored : StoredList MailboxV → MailboxesPayload
  | StoredList.absent => MailboxesPayload.absent
  | StoredList.items xs => MailboxesPayload.array (xs.map serializeMailboxV)
  | StoredList.rawStr _ => MailboxesPayload.absent

/-- Modelled from the spec: serialisation of an `Email` into the §6
payload schema (the schema has no attachments key). -/
def serializeEmail (e : Email) : EmailPayload :=
  { author := Option.some
      (match e.author with
       | MailboxV.mb m => Option.some (serializeMailbox m)
       | MailboxV.pyNone => Option.none
       | MailboxV.emptyDict => Option.some []),
    subject := Option.some e.subject,
    recipients := Option.some (serializeStored e.recipients),
    cc_recipients := serializeStored e.cc_recipients,
    bcc_recipients := serializeStored e.bcc_recipients,
    html_content := e.html_content,
    text_content := e.text_content }

/-- The mailbox obtained by pushing a mailbox through serialisation and
`Mailbox.from_json` again: the address is already normalized and kept,
the name is stripped once more. -/
def reparseMailbox (m : Mailbox) : Mailbox :=
  { name := m.name.map pyStrip, email_address := m.email_address }

/-- Round trip of one mailbox-position value: a mailbox is reparsed; a
Python `None` serialises to the empty mapping, which `Mailbox.from_json`
returns unchanged, as it does the empty mapping itself. -/
def roundTripMV : MailboxV → MailboxV
  | MailboxV.mb m => MailboxV.mb (reparseMailbox m)
  | MailboxV.pyNone => MailboxV.emptyDict
  | MailboxV.emptyDict => MailboxV.emptyDict

/-- Round trip of one author value through `Mailbox.from_json`. -/
def roundTripAuthor : MailboxV → MailboxV
  | MailboxV.mb m => MailboxV.mb (reparseMailbox m)
  | MailboxV.pyNone => MailboxV.pyNone
  | MailboxV.emptyDict => MailboxV.emptyDict

/-- Round trip of a stored recipients list: an empty collection is
falsy in Python and comes back absent; a non-empty collection comes
back element-wise reparsed. -/
def reparseStored : StoredList MailboxV → StoredList MailboxV
  | StoredList.absent => StoredList.absent
  | StoredList.items [] => StoredList.absent
  | StoredList.items xs => StoredList.items (xs.map roundTripMV)
  | StoredList.rawStr _ => StoredList.absent

/-- The email produced by serialising an email and deserialising the
payload again, when deserialisation succeeds. -/
def roundTripEmail (e : Email) : Email :=
  { author := roundTripAuthor e.author,
    recipients := reparseStored e.recipients,
    cc_recipients := reparseStored e.cc_recipients,
    bcc_recipients := reparseStored e.bcc_recipients,
    subject := e.subject,
    text_content := e.text_content,
    html_content := e.html_content,
    attached_files := StoredList.absent }

/-- A mailbox is well formed when its address is valid and already in
canonical (trimmed, lower-cased) form — precisely the state the
`Mailbox` constructor establishes. -/
def Mailbox.wellFormed (m : Mailbox) : Prop :=
  isValidEmailAddress m.email_address = true ∧ emailNormalize m.email_address = m.email_address

instance (m : Mailbox) : Decidable m.wellFormed := by
  unfold Mailbox.wellFormed; infer_instance

/-- A mailbox-position value that is an actual well-formed mailbox. -/
def MailboxV.wellFormedStrict : MailboxV → Prop
  | MailboxV.mb m => m.wellFormed
  | MailboxV.pyNone => False
  | MailboxV.emptyDict => False

instance (v : MailboxV) : Decidable v.wellFormedStrict := by
  cases v <;> (unfold MailboxV.wellFormedStrict; infer_instance)

/-- A mailbox-position value whose mailbox, if any, is well formed. -/
def MailboxV.wellFormedLoose : MailboxV → Prop
  | MailboxV.mb m => m.wellFormed
  | MailboxV.pyNone => True
  | MailboxV.emptyDict => True

instance (v : MailboxV) : Decidable v.wellFormedLoose := by
  cases v <;> (unfold MailboxV.wellFormedLoose; infer_instance)

/-- A stored recipients list that serialises and deserialises without
error: every stored mailbox must be well formed. -/
def StoredList.serializable : StoredList MailboxV → Prop
  | StoredList.absent => True
  | StoredList.items xs => ∀ v ∈ xs, v.wellFormedLoose
  | StoredList.rawStr _ => True

instance (st : StoredList MailboxV) : Decidable st.serializable := by
  cases st <;> (unfold StoredList.serializable; infer_instance)

/-- Observable used by the round-trip property: the address of the
author when the author is an actual mailbox. -/
def Email.authorAddress (e : Email) : Option String :=
  match e.author with
  | MailboxV.mb m => Option.some m.email_address
  | _ => Option.none

/-- Address of a mailbox-position value, when it is a mailbox. -/
def mvAddr : MailboxV → Option String
  | MailboxV.mb m => Option.some m.email_address
  | _ => Option.none

/-- Observable used by the round-trip property: the ordered addresses
of the stored primary recipients. -/
def Email.recipientAddresses (e : Email) : List String :=
  match e.recipients with
  | StoredList.items xs => xs.filterMap mvAddr
  | _ => []

/-- Value produced by `__parse_mailboxes_from_json` on the serialised
form of a stored recipients list: an empty collection serialises to an
empty sequence, which is falsy and parses back to `None`. -/
def storedParsed : StoredList MailboxV → Option (List MailboxV)
  | StoredList.items [] => Option.none
  | StoredList.items xs => Option.some (xs.map roundTripMV)
  | _ => Option.none

/-- A stored recipients list that is an actual collection of well
formed mailboxes — the state direct construction from valid parts
establishes. -/
def StoredList.allStrict : StoredList MailboxV → Prop
  | StoredList.items xs => ∀ v ∈ xs, v.wellFormedStrict
  | _ => False

instance (st : StoredList MailboxV) : Decidable st.allStrict := by
  cases st <;> (unfold StoredList.allStrict; infer_instance)

/-- Concrete email built from valid in-memory parts, used to witness
the round-trip property. -/
def exampleEmail : Email :=
  { author := MailboxV.mb { name := Option.some "Jane Doe", email_address := "jane@example.com" },
    recipients := StoredList.items [MailboxV.mb { name := Option.none, email_address := "a@b.com" }],
    cc_recipients := StoredList.absent,
    bcc_recipients := StoredList.absent,
    subject := "Hello",
    text_content := Option.none,
    html_content := Option.some "<p>hi</p>",
    attached_files := StoredList.absent }

/-- Helper: the only error `__build_list` can raise is the iteration
`TypeError`. -/
lemma build_list_error {α : Type} (la : ListArg α) (e : PyErr)
    (h : Email.build_list la = Except.error e) :
    e = PyErr.typeError "object is not iterable" := by
  cases la <;> simp [Email.build_list] at h
  exact h.symm

/-- Helper: `__build_list` succeeds on every argument that is not a
bare non-iterable scalar. -/
lemma build_list_ok {α : Type} (la : ListArg α) (h : la.isScalar = false) :
    ∃ st, Email.build_list la = Except.ok st := by
  cases la with
  | pyNone => exact ⟨_, rfl⟩
  | scalar a => simp [ListArg.isScalar] at h
  | coll xs => exact ⟨_, rfl⟩
  | strScalar s => exact ⟨_, rfl⟩

/-- Helper: when the content guard passes, any constructor failure is
the iteration `TypeError` from `__build_list`, never the
`InvalidArgument` validation error. -/
lemma email_init_error_shape (author : MailboxV) (r : ListArg MailboxV) (subject : String)
    (bcc cc : ListArg MailboxV) (html text : Option String) (af : ListArg String) (e : PyErr)
    (hg : ¬((is_empty_or_none html && is_empty_or_none text) = true))
    (h : Email.init author r subject bcc cc html text af = Except.error e) :
    e = PyErr.typeError "object is not iterable" := by
  unfold Email.init at h
  rw [if_neg hg] at h
  cases hr : Email.build_list r with
  | error e1 =>
      rw [hr] at h; simp at h
      rw [h] at hr
      exact build_list_error r e hr
  | ok rs =>
      rw [hr] at h; simp at h
      cases hc : Email.build_list cc with
      | error e2 =>
          rw [hc] at h; simp at h
          rw [h] at hc
          exact build_list_error cc e hc
      | ok cs =>
          rw [hc] at h; simp at h
          cases hb : Email.build_list bcc with
          | error e3 =>
              rw [hb] at h; simp at h
              rw [h] at hb
              exact build_list_error bcc e hb
          | ok bs =>
              rw [hb] at h; simp at h
              cases hf : Email.build_list af with
              | error e4 =>
                  rw [hf] at h; simp at h
                  rw [h] at hf
                  exact build_list_error af e hf
              | ok fs => rw [hf] at h; simp at h

/-- Helper: a successful construction whose recipients argument was the
Python value None stores absent recipients. -/
lemma email_init_pyNone_recipients (author : MailboxV) (s : String)
    (bcc cc : ListArg MailboxV) (html text : Option String) (af : ListArg String) (e : Email)
    (h : Email.init author ListArg.pyNone s bcc cc html text af = Except.ok e) :
    e.recipients = StoredList.absent := by
  simp only [Email.init] at h
  split at h
  · simp at h
  · simp only [Email.build_list] at h
    split at h
    · simp at h
    · split at h
      · simp at h
      · split at h
        · simp at h
        · simp only [Except.ok.injEq] at h
          subst h
          rfl

/-- C1 (code bug): the constructor docstring and the spec promise that
a single scalar recipient is accepted and wrapped into a one-element
list, but `__build_list` executes `list(value)` on the non-iterable
`Mailbox`, which raises `TypeError`, so the construction in the claim
fails instead of storing a one-element sequence. -/
theorem email_init_scalar_recipient_type_error :
    Email.init (MailboxV.mb { name := Option.none, email_address := "author@example.com" })
      (ListArg.scalar (MailboxV.mb { name := Option.none, email_address := "jane@example.com" }))
      "Subject" ListArg.pyNone ListArg.pyNone Option.none (Option.some "hi") ListArg.pyNone
      = Except.error (PyErr.typeError "object is not iterable") := by decide

/-- C2 (counterexample to the claim as stated): with a non-empty text
body, construction with a bare scalar recipient still fails — with a
`TypeError`, not an `InvalidArgument` — so it is not true that any
construction with at least one non-empty body succeeds. -/
theorem email_init_nonempty_content_still_fails :
    Email.init (MailboxV.mb { name := Option.none, email_address := "s@t.com" })
      (ListArg.scalar (MailboxV.mb { name := Option.none, email_address := "u@v.com" }))
      "Greetings" ListArg.pyNone ListArg.pyNone Option.none (Option.some "hello") ListArg.pyNone
      = Except.error (PyErr.typeError "object is not iterable") ∧
    is_empty_or_none (Option.some "hello") = false := by decide

/-- C2 (amended): construction fails with the `InvalidArgument` error
`Empty content` if and only if both bodies are absent or empty; when at
least one body is non-empty and every scalar-or-collection argument is
absent or an iterable, construction succeeds with no other validation;
on failure no `Email` value is produced. -/
theorem email_init_invalid_argument_iff (author : MailboxV) (r : ListArg MailboxV)
    (subject : String) (bcc cc : ListArg MailboxV) (html text : Option String)
    (af : ListArg String) :
    (Email.init author r subject bcc cc html text af
        = Except.error (PyErr.valueError "Empty content")
      ↔ is_empty_or_none html = true ∧ is_empty_or_none text = true) ∧
    ((is_empty_or_none html && is_empty_or_none text) = false →
      r.isScalar = false → cc.isScalar = false → bcc.isScalar = false → af.isScalar = false →
      (Email.init author r subject bcc cc html text af).isOk = true) := by
  constructor
  · constructor
    · intro h
      by_cases hg : (is_empty_or_none html && is_empty_or_none text) = true
      · simpa [Bool.and_eq_true] using hg
      · exact absurd (email_init_error_shape author r subject bcc cc html text af _ hg h)
          (by simp)
    · intro h
      unfold Email.init
      rw [if_pos (by simp [Bool.and_eq_true, h.1, h.2])]
  · intro hg hr hc hb hf
    obtain ⟨rs, hrs⟩ := build_list_ok r hr
    obtain ⟨cs, hcs⟩ := build_list_ok cc hc
    obtain ⟨bs, hbs⟩ := build_list_ok bcc hb
    obtain ⟨fs, hfs⟩ := build_list_ok af hf
    unfold Email.init
    rw [if_neg (by simp [hg])]
    rw [hrs, hcs, hbs, hfs]
    rfl

/-- C2 witness: with both bodies absent the constructor raises the
`Empty content` error; with a text body and collection-or-absent list
arguments it succeeds. -/
theorem email_init_invalid_argument_iff_witness :
    Email.init (MailboxV.mb { name := Option.none, email_address := "a@b.com" })
      (ListArg.coll []) "S" ListArg.pyNone ListArg.pyNone Option.none Option.none ListArg.pyNone
      = Except.error (PyErr.valueError "Empty content") ∧
    (Email.init (MailboxV.mb { name := Option.none, email_address := "a@b.com" })
      (ListArg.coll []) "S" ListArg.pyNone ListArg.pyNone Option.none (Option.some "hi")
      ListArg.pyNone).isOk = true :=
  ⟨(email_init_invalid_argument_iff _ _ _ _ _ _ _ _).1.mpr ⟨rfl, rfl⟩,
   (email_init_invalid_argument_iff _ _ _ _ _ _ _ _).2 rfl rfl rfl rfl rfl⟩

/-- C3 (code bug): on a single non-empty mapping the parser evaluates
`list(Mailbox.from_json(payload))`; `Mailbox.from_json` returns one
`Mailbox` object and `list(...)` then raises `TypeError` because a
`Mailbox` is not iterable, so no mailbox is produced for the mapping. -/
theorem parse_mailboxes_single_mapping_type_error :
    Email.parse_mailboxes_from_json (MailboxesPayload.dict [("email_address", "jane@example.com")])
      = Except.error (PyErr.typeError "object is not iterable") := by decide

/-- C4: for every constructor input string, if its trimmed lower-cased
form is a syntactically valid address the stored `email_address` is
exactly that trimmed lower-cased form, and otherwise construction
fails with the `InvalidArgument` error. -/
theorem mailbox_init_validates_and_normalizes (s : String) (name : Option String) :
    (isValidEmailAddress (emailNormalize s) = true →
      Mailbox.init s name
        = Except.ok { name := name.map pyStrip, email_address := emailNormalize s }) ∧
    (isValidEmailAddress (emailNormalize s) = false →
      Mailbox.init s name = Except.error (PyErr.valueError "invalid email address")) := by
  constructor
  · intro h
    simp [Mailbox.init, string_to_email_address, h]
  · intro h
    simp [Mailbox.init, string_to_email_address, h]

/-- C4 witness: a mixed-case address with surrounding whitespace is
normalized; the three invalid examples of the spec are rejected. -/
theorem mailbox_init_validates_and_normalizes_witness :
    Mailbox.init " Jane.DOE@Example.COM " Option.none
        = Except.ok { name := Option.none, email_address := "jane.doe@example.com" } ∧
    Mailbox.init "not-an-address" Option.none
        = Except.error (PyErr.valueError "invalid email address") ∧
    Mailbox.init "" Option.none = Except.error (PyErr.valueError "invalid email address") ∧
    Mailbox.init "a@" Option.none = Except.error (PyErr.valueError "invalid email address") :=
  ⟨(mailbox_init_validates_and_normalizes _ _).1 (by decide),
   (mailbox_init_validates_and_normalizes _ _).2 (by decide),
   (mailbox_init_validates_and_normalizes _ _).2 (by decide),
   (mailbox_init_validates_and_normalizes _ _).2 (by decide)⟩

/-- C5 (counterexample to the claim as stated): on the present but
empty mapping the required key `email_address` is missing, yet
`Mailbox.from_json` does not fail — the short-circuit
`payload and ...` returns the falsy empty dictionary itself. -/
theorem mailbox_from_json_empty_dict_no_error :
    Mailbox.from_json (Option.some []) = Except.ok MailboxV.emptyDict ∧
    Mailbox.from_json (Option.some []) ≠ Except.error (PyErr.keyError "email_address") ∧
    MailboxV.emptyDict ≠ MailboxV.pyNone := by decide

/-- C5 (amended): an absent payload yields absent; a present but empty
(falsy) payload is returned as-is, neither a `Mailbox` nor an error;
for a non-empty payload the required key `email_address` raises the
`KeyError`-class failure when missing, and otherwise the constructor is
delegated to with the optional `name`, so its validation and
normalization apply identically. -/
theorem mailbox_from_json_behavior (payload : Option (List (String × String))) :
    (payload = Option.none → Mailbox.from_json payload = Except.ok MailboxV.pyNone) ∧
    (payload = Option.some [] → Mailbox.from_json payload = Except.ok MailboxV.emptyDict) ∧
    (∀ d, payload = Option.some d → d ≠ [] → lookupKey d "email_address" = Option.none →
      Mailbox.from_json payload = Except.error (PyErr.keyError "email_address")) ∧
    (∀ d addr, payload = Option.some d → lookupKey d "email_address" = Option.some addr →
      Mailbox.from_json payload = (Mailbox.init addr (lookupKey d "name")).map MailboxV.mb) := by
  refine ⟨?_, ?_, ?_, ?_⟩
  · intro h; subst h; rfl
  · intro h; subst h; rfl
  · intro d h hne hl
    subst h
    cases d with
    | nil => exact absurd rfl hne
    | cons kv rest => simp [Mailbox.from_json, hl]
  · intro d addr h hl
    subst h
    cases d with
    | nil => simp [lookupKey] at hl
    | cons kv rest =>
        cases hm : Mailbox.init addr (lookupKey (kv :: rest) "name") with
        | error e => simp [Mailbox.from_json, hl, hm, Except.map]
        | ok m => simp [Mailbox.from_json, hl, hm, Except.map]

/-- C5 witness: the spec example payload delegates to the constructor
and produces the normalized address with an absent name. -/
theorem mailbox_from_json_behavior_witness :
    Mailbox.from_json (Option.some [("email_address", "A@B.COM")])
      = Except.ok (MailboxV.mb { name := Option.none, email_address := "a@b.com" }) :=
  ((mailbox_from_json_behavior (Option.some [("email_address", "A@B.COM")])).2.2.2
      [("email_address", "A@B.COM")] "A@B.COM" rfl (by decide)).trans (by decide)

/-- C6: `Email.from_json` yields absent on an absent payload; a missing
required key (`author`, `subject`, `recipients`), with the earlier
reads succeeding, fails with the `KeyError`-class error for that key;
a failing nested mailbox payload propagates its error (in particular
the `InvalidArgument` of `Mailbox.from_json`); and when all reads and
recipient parses succeed the result is exactly the delegation to the
`Email` constructor, so the at-least-one-body precondition still
applies. -/
theorem email_from_json_error_handling (p : EmailPayload) :
    (Email.from_json Option.none = Except.ok Option.none) ∧
    (p.author = Option.none →
      Email.from_json (Option.some p) = Except.error (PyErr.keyError "author")) ∧
    (∀ ap err, p.author = Option.some ap → Mailbox.from_json ap = Except.error err →
      Email.from_json (Option.some p) = Except.error err) ∧
    (∀ ap av, p.author = Option.some ap → Mailbox.from_json ap = Except.ok av →
      p.subject = Option.none →
      Email.from_json (Option.some p) = Except.error (PyErr.keyError "subject")) ∧
    (∀ ap av s, p.author = Option.some ap → Mailbox.from_json ap = Except.ok av →
      p.subject = Option.some s → p.recipients = Option.none →
      Email.from_json (Option.some p) = Except.error (PyErr.keyError "recipients")) ∧
    (∀ ap av s rp err, p.author = Option.some ap → Mailbox.from_json ap = Except.ok av →
      p.subject = Option.some s → p.recipients = Option.some rp →
      Email.parse_mailboxes_from_json rp = Except.error err →
      Email.from_json (Option.some p) = Except.error err) ∧
    (∀ ap av s rp ro co bo, p.author = Option.some ap → Mailbox.from_json ap = Except.ok av →
      p.subject = Option.some s → p.recipients = Option.some rp →
      Email.parse_mailboxes_from_json rp = Except.ok ro →
      Email.parse_mailboxes_from_json p.cc_recipients = Except.ok co →
      Email.parse_mailboxes_from_json p.bcc_recipients = Except.ok bo →
      Email.from_json (Option.some p)
        = (Email.init av (toListArg ro) s (toListArg bo) (toListArg co)
            p.html_content p.text_content ListArg.pyNone).map Option.some) := by
  refine ⟨rfl, ?_, ?_, ?_, ?_, ?_, ?_⟩
  · intro h1
    simp [Email.from_json, h1]
  · intro ap err h1 h2
    simp [Email.from_json, h1, h2]
  · intro ap av h1 h2 h3
    simp [Email.from_json, h1, h2, h3]
  · intro ap av s h1 h2 h3 h4
    simp [Email.from_json, h1, h2, h3, h4]
  · intro ap av s rp err h1 h2 h3 h4 h5
    simp [Email.from_json, h1, h2, h3, h4, h5]
  · intro ap av s rp ro co bo h1 h2 h3 h4 h5 h6 h7
    simp [Email.from_json, h1, h2, h3, h4, h5, h6, h7]

/-- C6 witness: the spec example — a payload whose key `subject` is
missing fails with the `KeyError`-class `MalformedPayload` error. -/
theorem email_from_json_error_handling_witness :
    Email.from_json (Option.some
      { author := Option.some (Option.some [("email_address", "a@b.com")]),
        subject := Option.none,
        recipients := Option.some (MailboxesPayload.array [[("email_address", "b@c.com")]]),
        cc_recipients := MailboxesPayload.absent,
        bcc_recipients := MailboxesPayload.absent,
        html_content := Option.none, text_content := Option.some "hi" })
      = Except.error (PyErr.keyError "subject") :=
  (email_from_json_error_handling _).2.2.2.1
    (Option.some [("email_address", "a@b.com")])
    (MailboxV.mb { name := Option.none, email_address := "a@b.com" })
    rfl (by decide) rfl

/-- C7: the derived accessor `content` is a pure function of the two
stored bodies — it returns the HTML body when that is present and
non-empty, and the text body otherwise. -/
theorem email_content_prefers_html (e : Email) :
    (∀ s, e.html_content = Option.some s → s.isEmpty = false → e.content = Option.some s) ∧
    ((e.html_content = Option.none ∨ e.html_content = Option.some "") →
      e.content = e.text_content) := by
  constructor
  · intro s hs hne
    simp [Email.content, hs, hne]
  · intro h
    cases h with
    | inl h =>
        unfold Email.content
        rw [h]
    | inr h =>
        unfold Email.content
        rw [h]
        rfl

/-- C7 witness: the spec example — an email with an HTML body and no
text body has that HTML body as its content. -/
theorem email_content_prefers_html_witness :
    Email.content
      { author := MailboxV.mb { name := Option.none, email_address := "a@b.com" },
        recipients := StoredList.items [], cc_recipients := StoredList.absent,
        bcc_recipients := StoredList.absent, subject := "Subject",
        text_content := Option.none, html_content := Option.some "<p>hi</p>",
        attached_files := StoredList.absent } = Option.some "<p>hi</p>" :=
  (email_content_prefers_html _).1 "<p>hi</p>" rfl rfl

/-- C8 (counterexample to the claim as stated): with an absent name the
f-string renders the Python value `None` as the text `None`, not as the
empty string. -/
theorem mailbox_str_absent_name_renders_none :
    Mailbox.toStr { name := Option.none, email_address := "jane@example.com" }
        = "\"None\" <jane@example.com>" ∧
    Mailbox.toStr { name := Option.none, email_address := "jane@example.com" }
        ≠ "\"\" <jane@example.com>" := by decide

/-- C8 (amended): the rendering is the stored name between literal
double quotes followed by the address between angle brackets, where an
absent name renders as the text `None` (the f-string rendering of the
Python value `None`), not as the empty string. -/
theorem mailbox_str_format (m : Mailbox) :
    (∀ n, m.name = Option.some n →
      Mailbox.toStr m = "\"" ++ n ++ "\" <" ++ m.email_address ++ ">") ∧
    (m.name = Option.none →
      Mailbox.toStr m = "\"None\" <" ++ m.email_address ++ ">") := by
  constructor
  · intro n h
    simp [Mailbox.toStr, pyStrOfOptionString, h]
  · intro h
    simp [Mailbox.toStr, pyStrOfOptionString, h]

/-- C8 witness: the spec example — a constructed mailbox with a name
renders with quotes and angle brackets. -/
theorem mailbox_str_format_witness :
    Mailbox.init "jane@example.com" (Option.some "Jane Doe")
        = Except.ok { name := Option.some "Jane Doe", email_address := "jane@example.com" } ∧
    Mailbox.toStr { name := Option.some "Jane Doe", email_address := "jane@example.com" }
        = "\"Jane Doe\" <jane@example.com>" :=
  ⟨by decide,
   ((mailbox_str_format _).1 "Jane Doe" rfl).trans (by decide)⟩

/-- C10: when the required key `recipients` is present but holds a
falsy value (an empty sequence or an empty mapping), a successfully
deserialized email stores absent recipients, not an empty sequence,
because the mailbox parser short-circuits every falsy payload to
`None`. -/
theorem email_from_json_falsy_recipients_absent (p : EmailPayload) (e : Email)
    (hrp : p.recipients = Option.some (MailboxesPayload.array [])
        ∨ p.recipients = Option.some (MailboxesPayload.dict []))
    (h : Email.from_json (Option.some p) = Except.ok (Option.some e)) :
    e.recipients = StoredList.absent := by
  simp only [Email.from_json] at h
  split at h
  · simp at h
  · rename_i ap hpa
    split at h
    · simp at h
    · rename_i av ha
      split at h
      · simp at h
      · rename_i s hps
        split at h
        · simp at h
        · rename_i rp hpr
          have hrp0 : Email.parse_mailboxes_from_json rp = Except.ok Option.none := by
            rcases hrp with h1 | h1 <;>
              (have h2 := hpr.symm.trans h1; injection h2 with h3; rw [h3]; rfl)
          split at h
          · rename_i err herr
            rw [hrp0] at herr
            simp at herr
          · rename_i ro hro
            have hro0 : ro = Option.none := by
              have h2 := hro.symm.trans hrp0
              injection h2
            subst hro0
            split at h
            · simp at h
            · rename_i co hco
              split at h
              · simp at h
              · rename_i bo hbo
                cases hi : Email.init av (toListArg Option.none) s (toListArg bo) (toListArg co)
                    p.html_content p.text_content ListArg.pyNone with
                | error err =>
                    rw [hi] at h
                    simp [Except.map] at h
                | ok e0 =>
                    rw [hi] at h
                    simp [Except.map] at h
                    rw [← h]
                    exact email_init_pyNone_recipients av s _ _ _ _ _ e0 hi

/-- C10 witness: a payload with an empty recipients sequence
deserializes successfully and the resulting email stores absent
recipients. -/
theorem email_from_json_falsy_recipients_absent_witness :
    Email.from_json (Option.some
      { author := Option.some (Option.some [("email_address", "a@b.com")]),
        subject := Option.some "S",
        recipients := Option.some (MailboxesPayload.array []),
        cc_recipients := MailboxesPayload.absent,
        bcc_recipients := MailboxesPayload.absent,
        html_content := Option.none, text_content := Option.some "hi" })
      = Except.ok (Option.some
        { author := MailboxV.mb { name := Option.none, email_address := "a@b.com" },
          recipients := StoredList.absent, cc_recipients := StoredList.absent,
          bcc_recipients := StoredList.absent, subject := "S",
          text_content := Option.some "hi", html_content := Option.none,
          attached_files := StoredList.absent }) ∧
    ({ author := MailboxV.mb { name := Option.none, email_address := "a@b.com" },
       recipients := StoredList.absent, cc_recipients := StoredList.absent,
       bcc_recipients := StoredList.absent, subject := "S",
       text_content := Option.some "hi", html_content := Option.none,
       attached_files := StoredList.absent } : Email).recipients = StoredList.absent :=
  ⟨by decide,
   email_from_json_falsy_recipients_absent
     { author := Option.some (Option.some [("email_address", "a@b.com")]),
       subject := Option.some "S",
       recipients := Option.some (MailboxesPayload.array []),
       cc_recipients := MailboxesPayload.absent,
       bcc_recipients := MailboxesPayload.absent,
       html_content := Option.none, text_content := Option.some "hi" }
     { author := MailboxV.mb { name := Option.none, email_address := "a@b.com" },
       recipients := StoredList.absent, cc_recipients := StoredList.absent,
       bcc_recipients := StoredList.absent, subject := "S",
       text_content := Option.some "hi", html_content := Option.none,
       attached_files := StoredList.absent }
     (Or.inl rfl) (by decide)⟩

/-- Helper: a well-formed mailbox survives serialisation followed by
`Mailbox.from_json`, with the address kept and the name re-stripped. -/
lemma mailbox_from_json_serialize (m : Mailbox) (h : m.wellFormed) :
    Mailbox.from_json (Option.some (serializeMailbox m))
      = Except.ok (MailboxV.mb (reparseMailbox m)) := by
  cases hn : m.name with
  | none =>
      have hs : serializeMailbox m = [("email_address", m.email_address)] := by
        simp [serializeMailbox, hn]
      rw [hs]
      simp [Mailbox.from_json, lookupKey, Mailbox.init, string_to_email_address, h.2, h.1,
        reparseMailbox, hn]
  | some n =>
      have hs : serializeMailbox m
          = [("email_address", m.email_address), ("name", n)] := by
        simp [serializeMailbox, hn]
      rw [hs]
      simp [Mailbox.from_json, lookupKey, Mailbox.init, string_to_email_address, h.2, h.1,
        reparseMailbox, hn]

/-- Helper: the comprehension over the serialised elements reproduces
the element-wise round trip. -/
lemma parse_mailbox_list_serialize (xs : List MailboxV) (h : ∀ v ∈ xs, v.wellFormedLoose) :
    Email.parse_mailbox_list (xs.map serializeMailboxV) = Except.ok (xs.map roundTripMV) := by
  induction xs with
  | nil => rfl
  | cons v rest ih =>
      have hv := h v (by simp)
      have hrest := ih (fun w hw => h w (by simp [hw]))
      have hone : Mailbox.from_json (Option.some (serializeMailboxV v))
          = Except.ok (roundTripMV v) := by
        cases v with
        | mb m => exact mailbox_from_json_serialize m hv
        | pyNone => rfl
        | emptyDict => rfl
      simp [Email.parse_mailbox_list, hone, hrest]

/-- Helper: parsing the serialised form of a serialisable stored list
succeeds and yields the expected value. -/
lemma parse_serializeStored (st : StoredList MailboxV) (h : st.serializable) :
    Email.parse_mailboxes_from_json (serializeStored st) = Except.ok (storedParsed st) := by
  cases st with
  | absent => rfl
  | rawStr s => rfl
  | items xs =>
      cases xs with
      | nil => rfl
      | cons x rest =>
          have hp := parse_mailbox_list_serialize (x :: rest) h
          simp only [List.map] at hp
          simp [serializeStored, Email.parse_mailboxes_from_json, hp, storedParsed]

/-- Helper: feeding the parsed value back through `__build_list` stores
exactly the round-tripped list. -/
lemma build_storedParsed (st : StoredList MailboxV) :
    Email.build_list (toListArg (storedParsed st)) = Except.ok (reparseStored st) := by
  cases st with
  | absent => rfl
  | rawStr s => rfl
  | items xs => cases xs <;> rfl

/-- Helper: the round trip keeps both bodies, hence the derived
content. -/
lemma roundTrip_content (e : Email) : (roundTripEmail e).content = e.content := rfl

/-- Helper: the element-wise round trip of well-formed mailboxes keeps
every address in order. -/
lemma filterMap_roundTrip (rs : List MailboxV) (h : ∀ v ∈ rs, v.wellFormedStrict) :
    (rs.map roundTripMV).filterMap mvAddr = rs.filterMap mvAddr := by
  induction rs with
  | nil => rfl
  | cons v rest ih =>
      have hv := h v (by simp)
      have hrest := ih (fun w hw => h w (by simp [hw]))
      cases v with
      | mb m => simp [roundTripMV, mvAddr, reparseMailbox, hrest]
      | pyNone => exact hv.elim
      | emptyDict => exact hv.elim

/-- Helper: the round trip keeps the ordered recipient addresses. -/
lemma roundTrip_recipientAddresses (e : Email) (rs : List MailboxV)
    (hr : e.recipients = StoredList.items rs) (hwf : ∀ v ∈ rs, v.wellFormedStrict) :
    (roundTripEmail e).recipientAddresses = e.recipientAddresses := by
  unfold Email.recipientAddresses roundTripEmail
  rw [hr]
  cases rs with
  | nil => rfl
  | cons v rest =>
      simp only [reparseStored]
      exact filterMap_roundTrip (v :: rest) hwf

/-- C9: for every email built from valid in-memory parts — a well
formed author mailbox, a collection of well formed recipient
mailboxes, serialisable carbon-copy lists and at least one non-empty
body — deserialising the serialised payload succeeds and reproduces
the author address, the subject, the ordered recipient addresses and
the content. -/
theorem email_round_trip (e : Email)
    (hauthor : e.author.wellFormedStrict)
    (hrec : e.recipients.allStrict)
    (hcc : e.cc_recipients.serializable)
    (hbcc : e.bcc_recipients.serializable)
    (hbody : (is_empty_or_none e.html_content && is_empty_or_none e.text_content) = false) :
    Email.from_json (Option.some (serializeEmail e))
        = Except.ok (Option.some (roundTripEmail e)) ∧
    (roundTripEmail e).authorAddress = e.authorAddress ∧
    (roundTripEmail e).subject = e.subject ∧
    (roundTripEmail e).recipientAddresses = e.recipientAddresses ∧
    (roundTripEmail e).content = e.content := by
  cases haut : e.author with
  | pyNone => rw [haut] at hauthor; exact hauthor.elim
  | emptyDict => rw [haut] at hauthor; exact hauthor.elim
  | mb a =>
    rw [haut] at hauthor
    cases hrecs : e.recipients with
    | absent => rw [hrecs] at hrec; exact hrec.elim
    | rawStr s => rw [hrecs] at hrec; exact hrec.elim
    | items rs =>
      rw [hrecs] at hrec
      have hrecser : (StoredList.items rs).serializable := by
        intro v hv
        have hstrict := hrec v hv
        cases v with
        | mb m => exact hstrict
        | pyNone => exact hstrict.elim
        | emptyDict => exact hstrict.elim
      have h1 := mailbox_from_json_serialize a hauthor
      have h2 := parse_serializeStored (StoredList.items rs) hrecser
      have h3 := parse_serializeStored e.cc_recipients hcc
      have h4 := parse_serializeStored e.bcc_recipients hbcc
      refine ⟨?_, ?_, rfl, roundTrip_recipientAddresses e rs hrecs hrec, roundTrip_content e⟩
      · simp only [serializeEmail, Email.from_json, haut, hrecs, h1, h2, h3, h4]
        unfold Email.init
        rw [if_neg (by simp [hbody])]
        simp only [build_storedParsed]
        simp only [Email.build_list, Except.map]
        simp only [roundTripEmail, roundTripAuthor, haut, hrecs]
      · simp [roundTripEmail, roundTripAuthor, Email.authorAddress, haut, reparseMailbox]

/-- C9 witness: the concrete example email round-trips with its author
address, subject, recipient addresses and content preserved. -/
theorem email_round_trip_witness :
    Email.from_json (Option.some (serializeEmail exampleEmail))
        = Except.ok (Option.some (roundTripEmail exampleEmail)) ∧
    (roundTripEmail exampleEmail).authorAddress = exampleEmail.authorAddress ∧
    (roundTripEmail exampleEmail).subject = exampleEmail.subject ∧
    (roundTripEmail exampleEmail).recipientAddresses = exampleEmail.recipientAddresses ∧
    (roundTripEmail exampleEmail).content = exampleEmail.content :=
  email_round_trip exampleEmail (by decide) (by decide) (by decide) (by decide) (by decide)
